import Mathlib

/-!
Shallow embedding of the contact-list state machine implemented in
src/src/app/dashboard/buyer-management/create-buyer/page.tsx.

The page component keeps a list of contacts in React state and mutates it
through three event handlers (addContact, removeContact, setPrimaryContact)
plus a submit handler (handleSubmit).  Each handler is a synchronous
run-to-completion function of the current list, so it is embedded here as a
pure function from the current list (and the handler's arguments) to the
resulting list, paired with the validation error it reports via a toast, if
any.  JavaScript strings are modelled by Lean strings; the source only ever
compares them with === / !==, trims them, and lower-cases them, which is
modelled by String equality and by jsTrim and jsToLower below (faithful on
the ASCII data the form handles).
-/

/-- Model of the JavaScript String.prototype.trim method: the string with
leading and trailing whitespace removed.  It is written on the character
list by structural recursion so that the kernel can evaluate it on concrete
inputs (faithful to the source's use: the form only ever handles ASCII
whitespace). -/
def jsTrim (s : String) : String :=
  ⟨((s.data.dropWhile Char.isWhitespace).reverse.dropWhile Char.isWhitespace).reverse⟩

/-- Model of the JavaScript String.prototype.toLowerCase method, faithful
on ASCII data: upper-case Latin letters are shifted to lower case, every
other character is kept. -/
def jsToLower (s : String) : String :=
  ⟨s.data.map (fun c => if 'A' ≤ c ∧ c ≤ 'Z' then Char.ofNat (c.toNat + 32) else c)⟩

/-- Translation of the TypeScript interface ContactDetails.  The isPrimary
field is optional in the source (isPrimary?: boolean), hence Option Bool. -/
structure ContactDetails where
  name : String
  email : String
  phoneNumber : String
  isPrimary : Option Bool := none
deriving Repr, DecidableEq

instance : Inhabited ContactDetails :=
  ⟨{ name := "", email := "", phoneNumber := "" }⟩

/-- JavaScript truthiness of the optional isPrimary field: undefined and
false are falsy, true is truthy. -/
def isPrimaryC (c : ContactDetails) : Bool := c.isPrimary.getD false

/-- Number of entries of the list whose isPrimary flag is truthy. -/
def primaryCount (l : List ContactDetails) : Nat :=
  l.countP (fun c => isPrimaryC c)

/-- Identity of a contact apart from its primary flag: the three data
fields name, email and phoneNumber. -/
def contactFields (c : ContactDetails) : String × String × String :=
  (c.name, c.email, c.phoneNumber)

/-- Validation failures the addContact handler reports through toast.error,
one constructor per early return (page.tsx lines 90-126). -/
inductive ValidationError where
  | nameRequired
  | emailRequired
  | phoneRequired
  | invalidEmail
  | duplicateName
  | duplicateEmail
deriving Repr, DecidableEq

/-- Characters admitted by the bracket class of the source's email pattern:
anything that is neither whitespace nor the at sign. -/
def isAtomChar (c : Char) : Bool := !c.isWhitespace && c != '@'

/-- Translation of the anchored JavaScript test
emailRegex.test(s) with emailRegex = /^[^\s@]+@[^\s@]+\.[^\s@]+$/
(page.tsx line 106).  A string matches exactly when it decomposes as
A ++ "@" ++ B ++ "." ++ C with A, B, C non-empty and free of whitespace
and of at signs (B and C may contain further dots).  Since A, B and C
contain no at sign, a matching string has a unique at sign, so it suffices
to split at the first one; the remainder after it must be non-empty,
atom-only, and contain a dot at an interior position. -/
def emailRegexTest (s : String) : Bool :=
  match s.data.findIdx? (fun c => c == '@') with
  | none => false
  | some i =>
    let localPart := s.data.take i
    let domainPart := s.data.drop (i + 1)
    decide (0 < localPart.length) && localPart.all isAtomChar &&
    decide (0 < domainPart.length) && domainPart.all isAtomChar &&
    (domainPart.drop 1).dropLast.any (fun c => c == '.')

/-- Translation of the addContact click handler (page.tsx lines 88-158).
It returns the contacts list as it stands after the handler runs, paired
with the validation error the handler toasts, if any; every early return
leaves the list untouched.  The guards, their order, and the success path
(trimmed fields, demotion of existing entries when the new one is primary,
forced promotion of the very first contact, prepending) follow the source
line by line; note that the email pattern is tested against the RAW
currentContact.email, not the trimmed one. -/
def addContact (currentContact : ContactDetails) (contacts : List ContactDetails) :
    List ContactDetails × Option ValidationError :=
  if (jsTrim currentContact.name) = "" then (contacts, some .nameRequired)
  else if jsTrim currentContact.email = "" then (contacts, some .emailRequired)
  else if jsTrim currentContact.phoneNumber = "" then (contacts, some .phoneRequired)
  else if !emailRegexTest currentContact.email then (contacts, some .invalidEmail)
  else if contacts.any (fun c => c.name == (jsTrim currentContact.name)) then
    (contacts, some .duplicateName)
  else if contacts.any (fun c =>
      jsToLower (jsTrim c.email) == jsToLower (jsTrim currentContact.email)) then
    (contacts, some .duplicateEmail)
  else
    let newContact : ContactDetails :=
      { name := (jsTrim currentContact.name)
        email := jsTrim currentContact.email
        phoneNumber := jsTrim currentContact.phoneNumber
        isPrimary := some (currentContact.isPrimary.getD false) }
    let updatedContacts :=
      if isPrimaryC newContact then
        contacts.map (fun c => { c with isPrimary := some false })
      else contacts
    let newContact' :=
      if contacts.length = 0 then { newContact with isPrimary := some true }
      else newContact
    (newContact' :: updatedContacts, none)

/-- Translation of removeContact (page.tsx lines 160-171): filter out every
entry whose name equals nameToRemove; if the first entry found under that
name was primary and contacts remain, promote the new head. -/
def removeContact (nameToRemove : String) (contacts : List ContactDetails) :
    List ContactDetails :=
  let updatedContacts := contacts.filter (fun c => c.name != nameToRemove)
  let removedContact := contacts.find? (fun c => c.name == nameToRemove)
  if (removedContact.bind (fun c => c.isPrimary)).getD false &&
      decide (0 < updatedContacts.length) then
    match updatedContacts with
    | [] => []
    | h :: t => { h with isPrimary := some true } :: t
  else updatedContacts

/-- Translation of setPrimaryContact (page.tsx lines 173-181): every entry
gets isPrimary := (its name equals contactName). -/
def setPrimaryContact (contactName : String) (contacts : List ContactDetails) :
    List ContactDetails :=
  contacts.map (fun c => { c with isPrimary := some (c.name == contactName) })

/-- Scalar form fields held by the surrounding form controller
(page.tsx lines 20-27). -/
structure FormData where
  name : String
  abn : String
  officeAddress : String
  email : String
  phoneNumber : String
  accountNumber : String
deriving Repr, DecidableEq

/-- Payload forwarded to the external creation endpoint
(page.tsx lines 211-214): the scalar fields spread together with the
contact list. -/
structure Buyer where
  name : String
  abn : String
  officeAddress : String
  email : String
  phoneNumber : String
  accountNumber : String
  contacts : List ContactDetails
deriving Repr, DecidableEq

/-- Validation failures the submit handler reports, one constructor per
early return (page.tsx lines 187-209). -/
inductive SubmitError where
  | noContacts
  | missingRequired
  | invalidEmail
deriving Repr, DecidableEq

/-- Translation of handleSubmit (page.tsx lines 183-217): on success the
buyer payload handed to createBuyerMutation.mutate, otherwise the error of
the early return taken.  An empty string is the falsy case of the
JavaScript required-field checks. -/
def handleSubmit (formData : FormData) (contacts : List ContactDetails) :
    Except SubmitError Buyer :=
  if contacts.length = 0 then .error .noContacts
  else if formData.name = "" || formData.abn = "" || formData.officeAddress = "" ||
      formData.email = "" || formData.phoneNumber = "" then .error .missingRequired
  else if !emailRegexTest formData.email then .error .invalidEmail
  else .ok { name := formData.name, abn := formData.abn,
             officeAddress := formData.officeAddress, email := formData.email,
             phoneNumber := formData.phoneNumber,
             accountNumber := formData.accountNumber, contacts := contacts }

/-- Lists reachable from the empty list (the state the form mounts with) by
the three handlers with arbitrary arguments.  A failed addContact leaves
the state unchanged, so the first projection covers successful and failed
calls alike. -/
inductive Reachable : List ContactDetails → Prop where
  | empty : Reachable []
  | add (cc : ContactDetails) {l : List ContactDetails} :
      Reachable l → Reachable (addContact cc l).1
  | remove (n : String) {l : List ContactDetails} :
      Reachable l → Reachable (removeContact n l)
  | setP (n : String) {l : List ContactDetails} :
      Reachable l → Reachable (setPrimaryContact n l)

/-- Reachability restricted so that every setPrimaryContact call names a
contact present in the list at the time of the call; the rendered page only
ever invokes the handler this way (page.tsx line 439 passes contact.name of
a displayed entry). -/
inductive ReachableGood : List ContactDetails → Prop where
  | empty : ReachableGood []
  | add (cc : ContactDetails) {l : List ContactDetails} :
      ReachableGood l → ReachableGood (addContact cc l).1
  | remove (n : String) {l : List ContactDetails} :
      ReachableGood l → ReachableGood (removeContact n l)
  | setP (n : String) {l : List ContactDetails} :
      ReachableGood l → (∃ c ∈ l, c.name = n) →
      ReachableGood (setPrimaryContact n l)

/-- Single-primary form of the invariant: no primary in the empty list,
exactly one in a non-empty one. -/
def PrimaryInv (l : List ContactDetails) : Prop :=
  primaryCount l = if l.isEmpty then 0 else 1

/-- Names of the list's entries are pairwise distinct. -/
def namesNodup (l : List ContactDetails) : Prop :=
  (l.map (fun c => c.name)).Nodup

example : emailRegexTest "a@x.com" = true := by decide
example : emailRegexTest "bad-email" = false := by decide
example : emailRegexTest " a@x.com" = false := by decide
example : emailRegexTest "a@x.com " = false := by decide
example : emailRegexTest "a@x" = false := by decide
example : emailRegexTest "a@x." = false := by decide
example : emailRegexTest "a@.x" = false := by decide
example : emailRegexTest "a@b@c.d" = false := by decide
example : emailRegexTest "a@b.c.d" = true := by decide
example : emailRegexTest "@x.com" = false := by decide

/-! Helper lemmas about addContact. -/

/-- Every early return of addContact hands back the list it was given. -/
theorem addContact_error_state (cc : ContactDetails) (l : List ContactDetails)
    (e : ValidationError) (h : (addContact cc l).2 = some e) :
    (addContact cc l).1 = l := by
  unfold addContact at h ⊢
  split_ifs at h ⊢ <;> simp_all

/-- Shape of the list produced by a successful addContact: the normalized
entry is prepended, carrying the requested primary flag except that the
first contact is forced primary; the existing entries are demoted exactly
when the candidate requested the primary flag. -/
theorem addContact_ok_shape (cc : ContactDetails) (l : List ContactDetails)
    (h : (addContact cc l).2 = none) :
    (addContact cc l).1 =
      ({ name := jsTrim cc.name, email := jsTrim cc.email,
         phoneNumber := jsTrim cc.phoneNumber,
         isPrimary := some (if l.length = 0 then true else cc.isPrimary.getD false) } :
        ContactDetails) ::
      (if cc.isPrimary.getD false = true then
        l.map (fun c => { c with isPrimary := some false })
      else l) := by
  unfold addContact at h ⊢
  split_ifs at h ⊢ <;> simp_all [isPrimaryC]

/-- A successful addContact passed the duplicate-name guard: no existing
entry carries the candidate's trimmed name. -/
theorem addContact_ok_newName (cc : ContactDetails) (l : List ContactDetails)
    (h : (addContact cc l).2 = none) :
    l.any (fun c => c.name == jsTrim cc.name) = false := by
  unfold addContact at h
  split_ifs at h <;> simp_all

/-! Counting and name-uniqueness infrastructure. -/

theorem primaryCount_nil : primaryCount [] = 0 := rfl

theorem primaryCount_cons (c : ContactDetails) (l : List ContactDetails) :
    primaryCount (c :: l) = primaryCount l + if isPrimaryC c then 1 else 0 := by
  simp [primaryCount, List.countP_cons]

/-- Demoting every entry wipes out all primaries. -/
theorem primaryCount_map_false (l : List ContactDetails) :
    primaryCount (l.map (fun c => { c with isPrimary := some false })) = 0 := by
  simp [primaryCount, List.countP_map, isPrimaryC, Function.comp]

/-- Primaries after setPrimaryContact are exactly the entries carrying the
requested name. -/
theorem primaryCount_setPrimaryContact (n : String) (l : List ContactDetails) :
    primaryCount (setPrimaryContact n l) = l.countP (fun c => c.name == n) := by
  simp [primaryCount, setPrimaryContact, List.countP_map, isPrimaryC, Function.comp_def]

/-- Updating primary flags does not touch the names. -/
theorem names_map_flag (l : List ContactDetails) (f : ContactDetails → Option Bool) :
    (l.map (fun c => { c with isPrimary := f c })).map (fun c => c.name) =
      l.map (fun c => c.name) := by
  simp [List.map_map, Function.comp]

/-- Counting entries by name is counting the name among the mapped names. -/
theorem countP_name_eq_count (n : String) (l : List ContactDetails) :
    l.countP (fun c => c.name == n) = (l.map (fun c => c.name)).count n := by
  simp [List.count, List.countP_map, Function.comp_def]

theorem countP_name_le_one (n : String) {l : List ContactDetails}
    (hd : namesNodup l) : l.countP (fun c => c.name == n) ≤ 1 := by
  rw [countP_name_eq_count]
  exact List.nodup_iff_count_le_one.mp hd n

theorem countP_name_eq_one (n : String) {l : List ContactDetails}
    (hd : namesNodup l) (hm : ∃ c ∈ l, c.name = n) :
    l.countP (fun c => c.name == n) = 1 := by
  rw [countP_name_eq_count]
  rcases hm with ⟨c, hc, rfl⟩
  exact List.count_eq_one_of_mem hd (List.mem_map_of_mem _ hc)

/-- Splitting a countP along a Boolean test of the entries. -/
theorem countP_filter_split (p q : ContactDetails → Bool) (l : List ContactDetails) :
    l.countP p = (l.filter q).countP p + (l.filter (fun c => !(q c))).countP p := by
  induction l with
  | nil => rfl
  | cons a t ih =>
    by_cases hq : q a = true <;>
      simp [List.countP_cons, List.filter_cons, hq, ih] <;> omega

/-- With pairwise distinct names, the entries filtered by the name found by
find? form exactly the singleton of the found entry. -/
theorem filter_name_eq_find (n : String) {l : List ContactDetails} {r : ContactDetails}
    (hd : namesNodup l) (hr : l.find? (fun c => c.name == n) = some r) :
    l.filter (fun c => c.name == n) = [r] := by
  induction l with
  | nil => simp at hr
  | cons a t ih =>
    unfold namesNodup at hd
    rw [List.map_cons, List.nodup_cons] at hd
    by_cases ha : (a.name == n) = true
    · rw [List.find?_cons_of_pos (p := fun (c : ContactDetails) => c.name == n) _ ha] at hr
      injection hr with hr
      subst hr
      rw [List.filter_cons_of_pos (p := fun (c : ContactDetails) => c.name == n) ha]
      have ht : t.filter (fun c => c.name == n) = [] := by
        rw [List.filter_eq_nil_iff]
        intro c hc hcn
        exact hd.1 (by
          simp only [beq_iff_eq] at ha hcn
          rw [ha, ← hcn]
          exact List.mem_map_of_mem _ hc)
      rw [ht]
    · rw [List.find?_cons_of_neg (p := fun (c : ContactDetails) => c.name == n) _ ha] at hr
      rw [List.filter_cons_of_neg (p := fun (c : ContactDetails) => c.name == n) ha]
      exact ih hd.2 hr

/-! Preservation of the invariants by each handler. -/

/-- Count of primaries right after a successful addContact: one when the
list was empty or the candidate requested the flag, otherwise whatever the
existing list had. -/
theorem addContact_ok_count (cc : ContactDetails) (l : List ContactDetails)
    (h : (addContact cc l).2 = none) :
    primaryCount (addContact cc l).1 =
      if l.length = 0 ∨ cc.isPrimary.getD false = true then 1
      else primaryCount l := by
  rw [addContact_ok_shape cc l h, primaryCount_cons]
  by_cases hp : cc.isPrimary.getD false = true
  · rcases l with _ | ⟨a, t⟩ <;>
      simp [hp, primaryCount_cons, primaryCount_map_false, isPrimaryC,
        primaryCount_nil]
  · rcases l with _ | ⟨a, t⟩ <;>
      simp [hp, isPrimaryC, primaryCount_nil]

/-- A successful addContact keeps the names pairwise distinct. -/
theorem addContact_ok_nodup (cc : ContactDetails) {l : List ContactDetails}
    (hd : namesNodup l) (h : (addContact cc l).2 = none) :
    namesNodup (addContact cc l).1 := by
  have hname := addContact_ok_newName cc l h
  rw [addContact_ok_shape cc l h]
  unfold namesNodup at hd ⊢
  have hnotin : jsTrim cc.name ∉ l.map (fun c => c.name) := by
    intro hmem
    rcases List.mem_map.mp hmem with ⟨c, hc, hcn⟩
    have := List.any_eq_false.mp hname c hc
    simp [hcn] at this
  by_cases hp : cc.isPrimary.getD false = true
  · rw [if_pos hp, List.map_cons, names_map_flag]
    exact List.nodup_cons.mpr ⟨hnotin, hd⟩
  · rw [if_neg hp, List.map_cons]
    exact List.nodup_cons.mpr ⟨hnotin, hd⟩

/-- State after an addContact call, successful or not, keeps the names
pairwise distinct. -/
theorem addContact_step_nodup (cc : ContactDetails) {l : List ContactDetails}
    (hd : namesNodup l) : namesNodup (addContact cc l).1 := by
  rcases h2 : (addContact cc l).2 with _ | e
  · exact addContact_ok_nodup cc hd h2
  · rw [addContact_error_state cc l e h2]; exact hd

/-- State after an addContact call, successful or not, keeps the
single-primary invariant. -/
theorem addContact_step_primaryInv (cc : ContactDetails) {l : List ContactDetails}
    (hc : PrimaryInv l) : PrimaryInv (addContact cc l).1 := by
  rcases h2 : (addContact cc l).2 with _ | e
  · have hcnt := addContact_ok_count cc l h2
    have hsh := addContact_ok_shape cc l h2
    unfold PrimaryInv at hc ⊢
    rw [hcnt, hsh]
    by_cases h0 : l.length = 0
    · simp [h0]
    · by_cases hp : cc.isPrimary.getD false = true
      · simp [hp]
      · have hle : l.isEmpty = false := by
          rcases l with _ | ⟨a, t⟩
          · simp at h0
          · rfl
        simp [h0, hp, hle] at hc ⊢
        exact hc
  · rw [addContact_error_state cc l e h2]; exact hc

/-- State after an addContact call, successful or not, keeps at most one
primary. -/
theorem addContact_step_le_one (cc : ContactDetails) {l : List ContactDetails}
    (hc : primaryCount l ≤ 1) : primaryCount (addContact cc l).1 ≤ 1 := by
  rcases h2 : (addContact cc l).2 with _ | e
  · rw [addContact_ok_count cc l h2]
    split <;> omega
  · rw [addContact_error_state cc l e h2]; exact hc

/-- Case analysis of removeContact: either it is plainly the filtered list
(and then the promotion guard did not fire, or nothing was left), or the
filtered list is non-empty, the first entry found under the removed name
was primary, and the head of the filtered list got promoted. -/
theorem removeContact_eq_cases (n : String) (l : List ContactDetails) :
    (removeContact n l = l.filter (fun c => c.name != n) ∧
      (((l.find? (fun c => c.name == n)).bind (fun c => c.isPrimary)).getD false = false ∨
        l.filter (fun c => c.name != n) = [])) ∨
    (∃ h0 t, l.filter (fun c => c.name != n) = h0 :: t ∧
      removeContact n l = { h0 with isPrimary := some true } :: t ∧
      ((l.find? (fun c => c.name == n)).bind (fun c => c.isPrimary)).getD false = true) := by
  unfold removeContact
  by_cases hb : ((l.find? (fun c => c.name == n)).bind (fun c => c.isPrimary)).getD false = true
  · rcases hu : l.filter (fun c => c.name != n) with _ | ⟨h0, t⟩
    · left
      constructor
      · simp [hb, hu]
      · right; exact hu
    · right
      exact ⟨h0, t, hu, by simp [hb, hu], hb⟩
  · left
    rw [Bool.not_eq_true] at hb
    constructor
    · simp [hb]
    · left; exact hb

/-- The promotion guard of removeContact can only fire when find? produced
a primary entry. -/
theorem find_primary_of_guard {n : String} {l : List ContactDetails}
    (hb : ((l.find? (fun c => c.name == n)).bind (fun c => c.isPrimary)).getD false = true) :
    ∃ r, l.find? (fun c => c.name == n) = some r ∧ isPrimaryC r = true := by
  rcases hf : l.find? (fun c => c.name == n) with _ | r
  · rw [hf] at hb; simp at hb
  · refine ⟨r, hf, ?_⟩
    rw [hf] at hb
    simpa [isPrimaryC] using hb

/-- Primaries of a list split between those that keep a name and those
that lose it. -/
theorem primaryCount_filter_split (n : String) (l : List ContactDetails) :
    primaryCount l =
      primaryCount (l.filter (fun c => c.name != n)) +
      primaryCount (l.filter (fun c => c.name == n)) := by
  have h := countP_filter_split (fun c => isPrimaryC c) (fun c => c.name != n) l
  simpa [primaryCount, bne, Bool.not_not] using h

/-- removeContact keeps the names pairwise distinct. -/
theorem removeContact_nodup (n : String) {l : List ContactDetails}
    (hd : namesNodup l) : namesNodup (removeContact n l) := by
  have hu : namesNodup (l.filter (fun c => c.name != n)) := by
    unfold namesNodup at hd ⊢
    exact List.Nodup.sublist ((List.filter_sublist l).map (fun c => c.name)) hd
  rcases removeContact_eq_cases n l with ⟨heq, _⟩ | ⟨h0, t, hfil, heq, _⟩
  · rw [heq]; exact hu
  · rw [heq]
    unfold namesNodup at hu ⊢
    rw [hfil] at hu
    simpa using hu

/-- removeContact keeps the single-primary invariant on lists with
pairwise distinct names. -/
theorem removeContact_primaryInv (n : String) {l : List ContactDetails}
    (hd : namesNodup l) (hc : PrimaryInv l) : PrimaryInv (removeContact n l) := by
  have hsplit := primaryCount_filter_split n l
  rcases hf : l.find? (fun c => c.name == n) with _ | r
  · have hall := List.find?_eq_none.mp hf
    have hfil : l.filter (fun c => c.name != n) = l := by
      rw [List.filter_eq_self]
      intro c hcmem
      simpa using hall c hcmem
    rcases removeContact_eq_cases n l with ⟨heq, _⟩ | ⟨h0, t, _, _, hb⟩
    · rw [heq, hfil]; exact hc
    · rcases find_primary_of_guard hb with ⟨r, hr, _⟩
      rw [hf] at hr
      exact absurd hr (by simp)
  · have hrmem : r ∈ l := List.mem_of_find?_eq_some hf
    have hlne : l.isEmpty = false := by
      rcases l with _ | _
      · simp at hrmem
      · rfl
    have hsing := filter_name_eq_find n hd hf
    rw [hsing] at hsplit
    unfold PrimaryInv at hc
    rw [hlne] at hc
    simp only [if_false, Bool.false_eq_true] at hc
    by_cases hbr : isPrimaryC r = true
    · have hr1 : primaryCount [r] = 1 := by
        simp [primaryCount_cons, primaryCount_nil, hbr]
      have hu0 : primaryCount (l.filter (fun c => c.name != n)) = 0 := by omega
      rcases removeContact_eq_cases n l with ⟨heq, hor⟩ | ⟨h0, t, hfil, heq, hb⟩
      · rcases hor with hguard | hempty
        · rw [hf] at hguard
          have : isPrimaryC r = false := by simpa [isPrimaryC] using hguard
          rw [this] at hbr
          exact absurd hbr (by simp)
        · rw [heq, hempty]
          unfold PrimaryInv
          simp [primaryCount_nil]
      · rw [heq]
        unfold PrimaryInv
        rw [hfil, primaryCount_cons] at hu0
        rw [primaryCount_cons]
        simp [isPrimaryC] at hu0 ⊢
        omega
    · have hbrf : isPrimaryC r = false := by simpa using hbr
      have hr0 : primaryCount [r] = 0 := by
        simp [primaryCount_cons, primaryCount_nil, hbrf]
      have hu1 : primaryCount (l.filter (fun c => c.name != n)) = 1 := by omega
      rcases removeContact_eq_cases n l with ⟨heq, _⟩ | ⟨h0, t, hfil, heq, hb⟩
      · rw [heq]
        unfold PrimaryInv
        rcases hfu : l.filter (fun c => c.name != n) with _ | ⟨a, t⟩
        · rw [hfu] at hu1
          simp [primaryCount_nil] at hu1
        · rw [hfu] at hu1
          rw [hfu]
          simp [hu1]
      · rcases find_primary_of_guard hb with ⟨r2, hr2, hp2⟩
        rw [hf] at hr2
        injection hr2 with hr2
        rw [← hr2] at hp2
        rw [hp2] at hbrf
        exact absurd hbrf (by simp)

/-- removeContact keeps at most one primary on lists with pairwise
distinct names. -/
theorem removeContact_le_one (n : String) {l : List ContactDetails}
    (hd : namesNodup l) (hc : primaryCount l ≤ 1) :
    primaryCount (removeContact n l) ≤ 1 := by
  have hsub : primaryCount (l.filter (fun c => c.name != n)) ≤ primaryCount l := by
    unfold primaryCount
    exact List.Sublist.countP_le _ (List.filter_sublist l)
  rcases removeContact_eq_cases n l with ⟨heq, _⟩ | ⟨h0, t, hfil, heq, hb⟩
  · rw [heq]; omega
  · rw [heq]
    rcases find_primary_of_guard hb with ⟨r, hf, hbr⟩
    have hsing := filter_name_eq_find n hd hf
    have hsplit := primaryCount_filter_split n l
    rw [hsing] at hsplit
    have hr1 : primaryCount [r] = 1 := by
      simp [primaryCount_cons, primaryCount_nil, hbr]
    have hu0 : primaryCount (l.filter (fun c => c.name != n)) = 0 := by omega
    rw [hfil, primaryCount_cons] at hu0
    rw [primaryCount_cons]
    simp only [isPrimaryC, Option.getD_some, if_true] at hu0 ⊢
    omega

/-- setPrimaryContact keeps the names pairwise distinct. -/
theorem setPrimaryContact_nodup (n : String) {l : List ContactDetails}
    (hd : namesNodup l) : namesNodup (setPrimaryContact n l) := by
  unfold namesNodup setPrimaryContact at *
  rw [names_map_flag]
  exact hd

/-- setPrimaryContact with the name of a present entry restores the
single-primary invariant on lists with pairwise distinct names. -/
theorem setPrimaryContact_primaryInv (n : String) {l : List ContactDetails}
    (hd : namesNodup l) (hm : ∃ c ∈ l, c.name = n) :
    PrimaryInv (setPrimaryContact n l) := by
  unfold PrimaryInv
  rw [primaryCount_setPrimaryContact, countP_name_eq_one n hd hm]
  rcases hm with ⟨c, hc, _⟩
  rcases l with _ | ⟨a, t⟩
  · simp at hc
  · simp [setPrimaryContact]

/-- setPrimaryContact leaves at most one primary on lists with pairwise
distinct names, whatever name it is handed. -/
theorem setPrimaryContact_le_one (n : String) {l : List ContactDetails}
    (hd : namesNodup l) : primaryCount (setPrimaryContact n l) ≤ 1 := by
  rw [primaryCount_setPrimaryContact]
  exact countP_name_le_one n hd

/-! Invariants of all reachable states. -/

/-- Every list reachable by the handlers has pairwise distinct names and
carries at most one primary entry. -/
theorem reachable_invariants {l : List ContactDetails} (h : Reachable l) :
    namesNodup l ∧ primaryCount l ≤ 1 := by
  induction h with
  | empty => exact ⟨List.nodup_nil, by simp [primaryCount_nil]⟩
  | add cc hl ih => exact ⟨addContact_step_nodup cc ih.1, addContact_step_le_one cc ih.2⟩
  | remove n hl ih => exact ⟨removeContact_nodup n ih.1, removeContact_le_one n ih.1 ih.2⟩
  | setP n hl ih => exact ⟨setPrimaryContact_nodup n ih.1, setPrimaryContact_le_one n ih.1⟩

/-- Every list reachable by the handlers, with setPrimaryContact only ever
called on a present name, has pairwise distinct names and satisfies the
single-primary invariant. -/
theorem reachableGood_invariants {l : List ContactDetails} (h : ReachableGood l) :
    namesNodup l ∧ PrimaryInv l := by
  induction h with
  | empty => exact ⟨List.nodup_nil, rfl⟩
  | add cc hl ih => exact ⟨addContact_step_nodup cc ih.1, addContact_step_primaryInv cc ih.2⟩
  | remove n hl ih => exact ⟨removeContact_nodup n ih.1, removeContact_primaryInv n ih.1 ih.2⟩
  | setP n hl hm ih => exact ⟨setPrimaryContact_nodup n ih.1, setPrimaryContact_primaryInv n ih.1 hm⟩

/-! Concrete contacts used by witnesses and counterexamples. -/

/-- Candidate contact requesting a non-primary slot. -/
def aliceCandidate : ContactDetails :=
  { name := "Alice", email := "a@x.com", phoneNumber := "111", isPrimary := some false }

/-- Stored contact entry holding the primary flag. -/
def aliceEntry : ContactDetails :=
  { name := "Alice", email := "a@x.com", phoneNumber := "111", isPrimary := some true }

/-- Candidate contact requesting the primary slot. -/
def bobCandidate : ContactDetails :=
  { name := "Bob", email := "b@x.com", phoneNumber := "222", isPrimary := some true }

/-- Stored primary entry named Bob. -/
def bobEntry : ContactDetails :=
  { name := "Bob", email := "b@x.com", phoneNumber := "222", isPrimary := some true }

/-- Stored non-primary entry named Alice. -/
def aliceSecondary : ContactDetails :=
  { name := "Alice", email := "a@x.com", phoneNumber := "111", isPrimary := some false }

/-- Claim C1, counterexample: starting from the empty list, add Alice (who
becomes primary) and then call setPrimaryContact with the absent name Bob;
the resulting list is reachable, non-empty, and has zero primary entries,
contradicting the claim that every non-empty list produced by any sequence
of the three operations has exactly one primary. -/
theorem C1_counterexample :
    Reachable (setPrimaryContact "Bob" (addContact aliceCandidate []).1) ∧
    (setPrimaryContact "Bob" (addContact aliceCandidate []).1).isEmpty = false ∧
    primaryCount (setPrimaryContact "Bob" (addContact aliceCandidate []).1) = 0 :=
  ⟨Reachable.setP "Bob" (Reachable.add aliceCandidate Reachable.empty),
   by decide, by decide⟩

/-- Claim C1 (amended): every list reachable from the empty list by any
sequence of addContact (successful or failed), removeContact and
setPrimaryContact calls has at most one primary entry; and when every
setPrimaryContact call in the sequence used the name of an entry present
in the list at the time of the call, the number of primary entries is 0
for the empty list and exactly 1 for a non-empty one. -/
theorem C1_single_primary_invariant (l : List ContactDetails) :
    (Reachable l → primaryCount l ≤ 1) ∧
    (ReachableGood l → primaryCount l = if l.isEmpty then 0 else 1) :=
  ⟨fun h => (reachable_invariants h).2,
   fun h => (reachableGood_invariants h).2⟩

/-- Witness for C1 at the concrete one-element reachable list obtained by
adding Alice to the empty list. -/
theorem C1_single_primary_invariant_witness :
    primaryCount (addContact aliceCandidate []).1 ≤ 1 ∧
    primaryCount (addContact aliceCandidate []).1 =
      if (addContact aliceCandidate []).1.isEmpty then 0 else 1 :=
  ⟨(C1_single_primary_invariant (addContact aliceCandidate []).1).1
      (Reachable.add aliceCandidate Reachable.empty),
   (C1_single_primary_invariant (addContact aliceCandidate []).1).2
      (ReachableGood.add aliceCandidate ReachableGood.empty)⟩

/-- Candidate whose email matches the pattern only after trimming. -/
def spacedEmailCandidate : ContactDetails :=
  { name := "Ann", email := " a@x.com", phoneNumber := "1", isPrimary := some false }

/-- Claim C2, counterexample: a candidate with all fields non-empty after
trimming, no duplicates (the list is empty), and an email whose TRIMMED
form matches the pattern is nevertheless rejected with the invalid-email
error, because the source tests the raw email against the anchored
pattern. -/
theorem C2_counterexample :
    jsTrim spacedEmailCandidate.name ≠ "" ∧
    jsTrim spacedEmailCandidate.email ≠ "" ∧
    jsTrim spacedEmailCandidate.phoneNumber ≠ "" ∧
    emailRegexTest (jsTrim spacedEmailCandidate.email) = true ∧
    (addContact spacedEmailCandidate []).2 = some ValidationError.invalidEmail := by
  decide

/-- Claim C2 (amended): for every candidate whose name, email and phone are
non-empty after trimming and that triggers no duplicate-name or
duplicate-email condition, addContact fails with the invalid-email error
if and only if the candidate's RAW (untrimmed) email does not match the
pattern; an email carrying surrounding whitespace is therefore rejected
even when its trimmed form matches. -/
theorem C2_invalid_email_iff (cc : ContactDetails) (l : List ContactDetails)
    (h1 : jsTrim cc.name ≠ "") (h2 : jsTrim cc.email ≠ "")
    (h3 : jsTrim cc.phoneNumber ≠ "")
    (h4 : l.any (fun c => c.name == jsTrim cc.name) = false)
    (h5 : l.any (fun c =>
      jsToLower (jsTrim c.email) == jsToLower (jsTrim cc.email)) = false) :
    ((addContact cc l).2 = some ValidationError.invalidEmail ↔
      emailRegexTest cc.email = false) := by
  unfold addContact
  split_ifs <;> simp_all

/-- Candidate whose email fails the pattern outright. -/
def badEmailCandidate : ContactDetails :=
  { name := "Bo", email := "bad-email", phoneNumber := "2", isPrimary := some false }

/-- Witness for C2 at a concrete malformed email. -/
theorem C2_invalid_email_iff_witness :
    (addContact badEmailCandidate []).2 = some ValidationError.invalidEmail :=
  (C2_invalid_email_iff badEmailCandidate [] (by decide) (by decide) (by decide)
    (by decide) (by decide)).mpr (by decide)

/-- Claim C3: adding any candidate that passes validation to the EMPTY
list succeeds and yields a one-element list whose sole entry carries the
trimmed fields and isPrimary = true, regardless of the requested flag
(first contact is always primary). -/
theorem C3_first_contact_forced_primary (cc : ContactDetails)
    (h1 : jsTrim cc.name ≠ "") (h2 : jsTrim cc.email ≠ "")
    (h3 : jsTrim cc.phoneNumber ≠ "") (h4 : emailRegexTest cc.email = true) :
    addContact cc [] =
      ([{ name := jsTrim cc.name, email := jsTrim cc.email,
          phoneNumber := jsTrim cc.phoneNumber, isPrimary := some true }], none) := by
  unfold addContact
  split_ifs <;> simp_all [isPrimaryC]

/-- Witness for C3: Alice, who requested isPrimary = false, still becomes
primary as the first contact. -/
theorem C3_first_contact_forced_primary_witness :
    addContact aliceCandidate [] =
      ([{ name := jsTrim aliceCandidate.name, email := jsTrim aliceCandidate.email,
          phoneNumber := jsTrim aliceCandidate.phoneNumber,
          isPrimary := some true }], none) :=
  C3_first_contact_forced_primary aliceCandidate (by decide) (by decide)
    (by decide) (by decide)

/-- Claim C4: whenever addContact succeeds, the result is exactly the
normalized entry (trimmed name, email and phone; flag as requested except
that the first contact is forced primary) prepended to the existing
entries, which are all demoted when the candidate requested the primary
flag and untouched otherwise. -/
theorem C4_add_success_shape (cc : ContactDetails) (l : List ContactDetails)
    (h : (addContact cc l).2 = none) :
    (addContact cc l).1 =
      ({ name := jsTrim cc.name, email := jsTrim cc.email,
         phoneNumber := jsTrim cc.phoneNumber,
         isPrimary := some (if l.length = 0 then true else cc.isPrimary.getD false) } :
        ContactDetails) ::
      (if cc.isPrimary.getD false = true then
        l.map (fun c => { c with isPrimary := some false })
      else l) :=
  addContact_ok_shape cc l h

/-- Witness for C4: Bob, requesting primary, is prepended to the list
holding primary Alice, who gets demoted. -/
theorem C4_add_success_shape_witness :
    (addContact bobCandidate [aliceEntry]).1 =
      ({ name := jsTrim bobCandidate.name, email := jsTrim bobCandidate.email,
         phoneNumber := jsTrim bobCandidate.phoneNumber,
         isPrimary := some (if ([aliceEntry] : List ContactDetails).length = 0 then true
           else bobCandidate.isPrimary.getD false) } : ContactDetails) ::
      (if bobCandidate.isPrimary.getD false = true then
        [aliceEntry].map (fun c => { c with isPrimary := some false })
      else [aliceEntry]) :=
  C4_add_success_shape bobCandidate [aliceEntry] (by decide)

/-- Claim C5: every validation failure of addContact leaves the contact
list unchanged (each early return fires before the list is touched). -/
theorem C5_failed_add_leaves_list (cc : ContactDetails) (l : List ContactDetails)
    (e : ValidationError) (h : (addContact cc l).2 = some e) :
    (addContact cc l).1 = l :=
  addContact_error_state cc l e h

/-- Candidate whose name trims to the empty string. -/
def blankNameCandidate : ContactDetails :=
  { name := " ", email := "e@x.com", phoneNumber := "3", isPrimary := none }

/-- Witness for C5: a blank contact name is rejected and the list with
Alice stays as it was. -/
theorem C5_failed_add_leaves_list_witness :
    (addContact blankNameCandidate [aliceEntry]).1 = [aliceEntry] :=
  C5_failed_add_leaves_list blankNameCandidate [aliceEntry]
    ValidationError.nameRequired (by decide)

/-- Candidate clashing with Alice both on name and (case-insensitively) on
email. -/
def aliceShadow : ContactDetails :=
  { name := "Alice", email := "A@X.com", phoneNumber := "9", isPrimary := some false }

/-- Claim C6, counterexample: the candidate has non-empty trimmed fields, a
well-formed email, and an existing entry whose trimmed lower-cased email
equals the candidate's trimmed lower-cased email, yet addContact reports
the duplicate-NAME error, because the duplicate-name guard runs first. -/
theorem C6_counterexample :
    jsTrim aliceShadow.name ≠ "" ∧
    jsTrim aliceShadow.email ≠ "" ∧
    jsTrim aliceShadow.phoneNumber ≠ "" ∧
    emailRegexTest aliceShadow.email = true ∧
    ([aliceEntry].any (fun c =>
      jsToLower (jsTrim c.email) == jsToLower (jsTrim aliceShadow.email)) = true) ∧
    (addContact aliceShadow [aliceEntry]).2 = some ValidationError.duplicateName := by
  decide

/-- Claim C6 (amended): with non-empty trimmed fields, a well-formed email,
AND no existing entry under the candidate's trimmed name, a case-insensitive
email clash makes addContact fail with the duplicate-email error. -/
theorem C6_duplicate_email_case_insensitive (cc : ContactDetails)
    (l : List ContactDetails)
    (h1 : jsTrim cc.name ≠ "") (h2 : jsTrim cc.email ≠ "")
    (h3 : jsTrim cc.phoneNumber ≠ "") (h4 : emailRegexTest cc.email = true)
    (h5 : l.any (fun c => c.name == jsTrim cc.name) = false)
    (h6 : l.any (fun c =>
      jsToLower (jsTrim c.email) == jsToLower (jsTrim cc.email)) = true) :
    (addContact cc l).2 = some ValidationError.duplicateEmail := by
  unfold addContact
  split_ifs <;> simp_all

/-- Candidate whose email differs from Alice's only in letter case. -/
def carolCaseEmail : ContactDetails :=
  { name := "Carol", email := "A@x.COM", phoneNumber := "5", isPrimary := some false }

/-- Witness for C6: Carol's email, a case variant of Alice's, triggers the
duplicate-email error. -/
theorem C6_duplicate_email_case_insensitive_witness :
    (addContact carolCaseEmail [aliceEntry]).2 = some ValidationError.duplicateEmail :=
  C6_duplicate_email_case_insensitive carolCaseEmail [aliceEntry] (by decide)
    (by decide) (by decide) (by decide) (by decide) (by decide)

/-- Entry named X, not primary, used by the C7 counterexample. -/
def xuOne : ContactDetails :=
  { name := "X", email := "x1@a.b", phoneNumber := "1", isPrimary := some false }

/-- Entry named X, primary, used by the C7 counterexample. -/
def xuTwo : ContactDetails :=
  { name := "X", email := "x2@a.b", phoneNumber := "2", isPrimary := some true }

/-- Entry named Y, not primary, used by the C7 counterexample. -/
def ySide : ContactDetails :=
  { name := "Y", email := "y@a.b", phoneNumber := "3", isPrimary := some false }

/-- Claim C7, counterexample: on a list with two entries named X where only
the SECOND is primary, removeContact removes a primary entry and leaves a
non-empty list whose head is not primary — the source keys the promotion on
the FIRST entry found under the name, which here is not the primary one. -/
theorem C7_counterexample :
    xuTwo ∈ ([xuOne, xuTwo, ySide] : List ContactDetails) ∧
    xuTwo.name = "X" ∧ isPrimaryC xuTwo = true ∧
    removeContact "X" [xuOne, xuTwo, ySide] = [ySide] ∧
    isPrimaryC ySide = false := by
  decide

/-- Claim C7 (amended): removeContact removes exactly the entries whose
name equals the given one, keeping the remaining entries in order (their
data fields are untouched and every entry beyond the head is fully
untouched); and when the FIRST entry found under the given name was
primary and the resulting list is non-empty, the head of the resulting
list is primary. -/
theorem C7_remove_exact_and_promote (n : String) (l : List ContactDetails) :
    (∀ c ∈ removeContact n l, ¬ c.name = n) ∧
    ((removeContact n l).map contactFields =
      (l.filter (fun c => c.name != n)).map contactFields) ∧
    ((removeContact n l).tail = (l.filter (fun c => c.name != n)).tail) ∧
    (∀ r, l.find? (fun c => c.name == n) = some r → isPrimaryC r = true →
      ∀ hne : removeContact n l ≠ [],
        isPrimaryC ((removeContact n l).head hne) = true) := by
  rcases removeContact_eq_cases n l with ⟨heq, hor⟩ | ⟨h0, t, hfil, heq, hb⟩
  · refine ⟨?_, by rw [heq], by rw [heq], ?_⟩
    · intro c hc
      rw [heq] at hc
      simpa using List.of_mem_filter hc
    · intro r hfr hpr hne
      rcases hor with hguard | hempty
      · rw [hfr] at hguard
        have : isPrimaryC r = false := by simpa [isPrimaryC] using hguard
        rw [this] at hpr
        exact absurd hpr (by simp)
      · rw [heq, hempty] at hne
        exact absurd rfl hne
  · have hh0 : (h0.name != n) = true := by
      have hmem : h0 ∈ l.filter (fun c => c.name != n) := by
        rw [hfil]; exact List.mem_cons_self h0 t
      exact List.of_mem_filter (p := fun (c : ContactDetails) => c.name != n) hmem
    refine ⟨?_, ?_, ?_, ?_⟩
    · intro c hc
      rw [heq] at hc
      rcases List.mem_cons.mp hc with rfl | hct
      · simpa using hh0
      · have hmem : c ∈ l.filter (fun c => c.name != n) := by
          rw [hfil]; exact List.mem_cons_of_mem h0 hct
        simpa using List.of_mem_filter hmem
    · rw [heq, hfil]
      simp [contactFields]
    · rw [heq, hfil]
      rfl
    · intro r hfr hpr hne
      have hgen : ∀ (m : List ContactDetails) (hm : m ≠ []),
          m = { h0 with isPrimary := some true } :: t →
          isPrimaryC (m.head hm) = true := by
        rintro m hm rfl
        simp [isPrimaryC]
      exact hgen _ hne heq

/-- Witness for C7, the spec's own example: removing primary Bob from
[Bob, Alice] promotes Alice, the new head. -/
theorem C7_remove_exact_and_promote_witness :
    isPrimaryC ((removeContact "Bob" [bobEntry, aliceSecondary]).head (by decide)) = true :=
  (C7_remove_exact_and_promote "Bob" [bobEntry, aliceSecondary]).2.2.2 bobEntry
    (by decide) (by decide) (by decide)

/-- Claim C8: setPrimaryContact keeps every entry's data fields and order,
sets isPrimary to the Boolean "name equals the given name" on every entry,
and with no matching name the result has zero primaries; the operation is
a total function (it never fails), matching the source's silent no-op. -/
theorem C8_setPrimary_by_name (n : String) (l : List ContactDetails) :
    ((setPrimaryContact n l).map contactFields = l.map contactFields) ∧
    (∀ c ∈ setPrimaryContact n l, c.isPrimary = some (c.name == n)) ∧
    ((∀ c ∈ l, c.name ≠ n) → primaryCount (setPrimaryContact n l) = 0) := by
  refine ⟨?_, ?_, ?_⟩
  · simp [setPrimaryContact, List.map_map, contactFields, Function.comp_def]
  · intro c hc
    rcases List.mem_map.mp hc with ⟨c0, _, rfl⟩
    rfl
  · intro hall
    rw [primaryCount_setPrimaryContact, List.countP_eq_zero]
    intro c hc
    simpa using hall c hc

/-- Witness for C8 at the absent name Z over the singleton list holding
Alice: zero primaries remain. -/
theorem C8_setPrimary_by_name_witness :
    primaryCount (setPrimaryContact "Z" [aliceEntry]) = 0 :=
  (C8_setPrimary_by_name "Z" [aliceEntry]).2.2 (by decide)

/-- Claim C9: handleSubmit refuses an empty contact list (nothing is
forwarded), and whenever it does produce a payload the contact list was
non-empty and the payload carries exactly the form's scalar fields
together with the contact list. -/
theorem C9_submit_requires_contacts (fd : FormData) (contacts : List ContactDetails) :
    (contacts = [] → ∀ b, handleSubmit fd contacts ≠ Except.ok b) ∧
    (∀ b, handleSubmit fd contacts = Except.ok b →
      1 ≤ contacts.length ∧ b.contacts = contacts ∧ b.name = fd.name ∧
      b.abn = fd.abn ∧ b.officeAddress = fd.officeAddress ∧ b.email = fd.email ∧
      b.phoneNumber = fd.phoneNumber ∧ b.accountNumber = fd.accountNumber) := by
  constructor
  · rintro rfl b h
    simp [handleSubmit] at h
  · intro b h
    unfold handleSubmit at h
    have g1 : ¬ contacts.length = 0 := by
      intro h0
      rw [if_pos h0] at h
      exact Except.noConfusion h
    rw [if_neg g1] at h
    split_ifs at h
    rw [Except.ok.injEq] at h
    subst h
    exact ⟨by omega, rfl, rfl, rfl, rfl, rfl, rfl, rfl⟩

/-- Scalar form fields used by the C9 witness. -/
def sampleForm : FormData :=
  { name := "Acme", abn := "11 222", officeAddress := "1 High St",
    email := "buyer@acme.com", phoneNumber := "0400", accountNumber := "" }

/-- Payload produced by submitting sampleForm with the singleton Alice
list. -/
def sampleBuyer : Buyer :=
  { name := "Acme", abn := "11 222", officeAddress := "1 High St",
    email := "buyer@acme.com", phoneNumber := "0400", accountNumber := "",
    contacts := [aliceEntry] }

/-- Witness for C9 at the concrete sample form and one-contact list. -/
theorem C9_submit_requires_contacts_witness :
    1 ≤ ([aliceEntry] : List ContactDetails).length ∧
    sampleBuyer.contacts = [aliceEntry] ∧
    sampleBuyer.name = sampleForm.name ∧ sampleBuyer.abn = sampleForm.abn ∧
    sampleBuyer.officeAddress = sampleForm.officeAddress ∧
    sampleBuyer.email = sampleForm.email ∧
    sampleBuyer.phoneNumber = sampleForm.phoneNumber ∧
    sampleBuyer.accountNumber = sampleForm.accountNumber :=
  (C9_submit_requires_contacts sampleForm [aliceEntry]).2 sampleBuyer rfl

/-- Claim C10: removeContact with a name carried by no entry returns the
list unchanged, flags included. -/
theorem C10_remove_absent_is_identity (n : String) (l : List ContactDetails)
    (h : ∀ c ∈ l, ¬ c.name = n) : removeContact n l = l := by
  have hfind : l.find? (fun c => c.name == n) = none :=
    List.find?_eq_none.mpr (fun c hc => by simpa using h c hc)
  have hfil : l.filter (fun c => c.name != n) = l :=
    List.filter_eq_self.mpr (fun c hc => by simpa using h c hc)
  unfold removeContact
  simp [hfind, hfil]

/-- Witness for C10: removing the absent name Zed leaves the singleton
Alice list untouched. -/
theorem C10_remove_absent_is_identity_witness :
    removeContact "Zed" [aliceEntry] = [aliceEntry] :=
  C10_remove_absent_is_identity "Zed" [aliceEntry] (by decide)
